import Mathlib

/-!
Verification of `app.py` (Indiana County ROI & Property-Tax Heatmap).

The script has three stages:
1. `fetch_acs_indiana` — parses the ACS response rows, converts the three
   numeric fields to float, builds `fips = state + county`, and derives
   `roi = (rent * 12) / home_value` and `tax_rate = tax / home_value`.
2. `load_indiana_county_shapes` — filters the TIGER county table to
   `STATEFP == "18"` and builds `fips = STATEFP + COUNTYFP`.
3. UI — `merged = gdf.merge(df, on="fips")` (pandas inner join), a metric
   radio that sets `merged["value"]` to the chosen ratio times 100, a folium
   tooltip over columns `NAME, value`, and a CSV download of
   `merged[["NAME","roi","tax_rate"]]` renamed to
   `county, rental_roi, property_tax_rate`.

Pandas float cells are embedded as `FVal` (a finite rational or one of the
IEEE non-finite values), so that division by zero is modelled the way
numpy/pandas performs it (yielding `inf`/`nan`, not an exception).
Column-level pandas behaviour (the `_x`/`_y` suffixing of overlapping
column names during `merge`, and the KeyError raised by selecting a missing
column) is embedded over schemas as lists of column names.
-/

namespace IndianaROI

/-- A pandas float cell: a finite rational, plus the IEEE non-finite values
that numpy division can produce. -/
inductive FVal where
  | fin (q : ℚ)
  | inf
  | neginf
  | nan
deriving DecidableEq, Repr

/-- numpy/pandas elementwise float division: a zero divisor yields
`inf`, `-inf` or `nan` according to the sign of the dividend (no exception
is raised). -/
def fdiv (x y : ℚ) : FVal :=
  if y = 0 then
    if 0 < x then FVal.inf else if x < 0 then FVal.neginf else FVal.nan
  else FVal.fin (x / y)

/-- numpy/pandas float multiplication of a cell by the scalar 100
(`merged["roi"] * 100`): finite values scale, non-finite values persist. -/
def fscale100 : FVal → FVal
  | FVal.fin q => FVal.fin (q * 100)
  | v => v

/-- One data row of the ACS response after the header row is split off and
the three numeric fields have been converted by `astype(float)`
(`NAME`, `B25064_001E` = median gross rent, `B25077_001E` = median home
value, `B25092_001E` = median property tax, `state`, `county`). -/
structure AcsRow where
  NAME : String
  rent : ℚ
  homeValue : ℚ
  tax : ℚ
  state : String
  county : String
deriving DecidableEq, Repr

/-- One row of `fetch_acs_indiana`'s result frame
`df[["NAME","fips","roi","tax_rate"]]`. -/
structure Region where
  NAME : String
  fips : String
  roi : FVal
  tax_rate : FVal
deriving DecidableEq, Repr

/-- The per-row derivation inside `fetch_acs_indiana`:
`fips = state + county`, `roi = (rent * 12) / home_value`,
`tax_rate = tax / home_value` (pandas float division). -/
def deriveRegion (r : AcsRow) : Region :=
  { NAME := r.NAME
  , fips := r.state ++ r.county
  , roi := fdiv (r.rent * 12) r.homeValue
  , tax_rate := fdiv r.tax r.homeValue }

/-- `fetch_acs_indiana`, applied to the parsed data rows: it returns the
derived frame unconditionally (there is no guard and no raised error on the
data values). -/
def fetch_acs_indiana (rows : List AcsRow) : List Region :=
  rows.map deriveRegion

/-- One row of the TIGER/Line county shapefile as read by geopandas
(the columns the script uses, plus the geometry; the geometry type is a
parameter since the script never inspects it). -/
structure ShpRow (γ : Type) where
  STATEFP : String
  COUNTYFP : String
  NAME : String
  geometry : γ
deriving DecidableEq, Repr

/-- One row of `load_indiana_county_shapes`'s result frame
`gdf[["fips","geometry","NAME"]]`. -/
structure Boundary (γ : Type) where
  fips : String
  geometry : γ
  NAME : String
deriving DecidableEq, Repr

/-- `load_indiana_county_shapes`: keep the rows with `STATEFP == "18"`,
set `fips = STATEFP + COUNTYFP`, project to `fips, geometry, NAME`. -/
def load_indiana_county_shapes (gdf : List (ShpRow γ)) : List (Boundary γ) :=
  (gdf.filter (fun r => r.STATEFP = "18")).map
    (fun r => { fips := r.STATEFP ++ r.COUNTYFP, geometry := r.geometry, NAME := r.NAME })

/-- One row of `merged = gdf.merge(df, on="fips")`.  Both frames carry a
column `NAME`, so pandas suffixes the overlapping non-key columns: the
merged frame's name columns are `NAME_x` (from `gdf`, the left frame) and
`NAME_y` (from `df`, the right frame). -/
structure MergedRec (γ : Type) where
  fips : String
  geometry : γ
  NAME_x : String
  NAME_y : String
  roi : FVal
  tax_rate : FVal
deriving DecidableEq, Repr

/-- `gdf.merge(df, on="fips")`: pandas inner join on the `fips` key — each
left row is paired with every right row carrying an equal key. -/
def mergeRecs (gdf : List (Boundary γ)) (df : List Region) : List (MergedRec γ) :=
  gdf.flatMap (fun b =>
    (df.filter (fun r => r.fips = b.fips)).map (fun r =>
      { fips := b.fips, geometry := b.geometry, NAME_x := b.NAME, NAME_y := r.NAME,
        roi := r.roi, tax_rate := r.tax_rate }))

/-- A merged row after the metric block has assigned `merged["value"]`. -/
structure ValuedRec (γ : Type) extends MergedRec γ where
  value : FVal
deriving DecidableEq, Repr

/-- The two options of the `st.radio("Metric", ...)` selector. -/
def metricOptions : List String := ["Rental ROI (%)", "Property Tax Rate (%)"]

/-- Python's `s.startswith(p)`: the characters of `p` lead those of `s`. -/
def pyStartswith (s p : String) : Bool := p.data.isPrefixOf s.data

/-- The metric block: `if metric.startswith("Rental")` then
`merged["value"] = merged["roi"] * 100` else
`merged["value"] = merged["tax_rate"] * 100`, per row. -/
def applyMetric (metric : String) (r : MergedRec γ) : ValuedRec γ :=
  if pyStartswith metric "Rental" then
    { toMergedRec := r, value := fscale100 r.roi }
  else
    { toMergedRec := r, value := fscale100 r.tax_rate }

/-- The legend chosen by the metric block. -/
def legendOf (metric : String) : String :=
  if pyStartswith metric "Rental" then "Rental ROI (%)" else "Property Tax Rate (%)"

/-! ### Column-level pandas semantics

`merge` suffixes overlapping non-key column names with `_x` (left) / `_y`
(right); selecting columns (`frame[[c, ...]]`) raises a KeyError when a
requested name is absent. -/

/-- The suffixing pandas `merge` applies to one column name of one side:
a non-key name that also occurs on the other side gets the suffix. -/
def suffixOverlap (other : List String) (key sfx c : String) : String :=
  if c ≠ key ∧ c ∈ other then c ++ sfx else c

/-- The column list of `left.merge(right, on=key)`: the left columns
(overlaps suffixed `_x`), then the right columns without the key
(overlaps suffixed `_y`). -/
def mergeColumns (left right : List String) (key : String) : List String :=
  left.map (suffixOverlap right key "_x") ++
    (right.filter (fun c => c ≠ key)).map (suffixOverlap left key "_y")

/-- `frame[[c, ...]]`: the selection succeeds only when every requested
name is a column of the frame; otherwise pandas raises a KeyError. -/
def selectColumns (avail req : List String) : Except String (List String) :=
  if req.all (fun c => decide (c ∈ avail)) then Except.ok req
  else Except.error "KeyError: not in index"

/-- Columns of `df` as returned by `fetch_acs_indiana`. -/
def dfColumns : List String := ["NAME", "fips", "roi", "tax_rate"]

/-- Columns of `gdf` as returned by `load_indiana_county_shapes`. -/
def gdfColumns : List String := ["fips", "geometry", "NAME"]

/-- Columns of `merged = gdf.merge(df, on="fips")`. -/
def mergedColumns : List String := mergeColumns gdfColumns dfColumns "fips"

/-- Columns of `merged` after `merged["value"] = ...` (assignment of a new
name appends the column). -/
def valuedColumns : List String := mergedColumns ++ ["value"]

/-- The column selection performed by the CSV download:
`merged[["NAME","roi","tax_rate"]]`. -/
def csvSelect : Except String (List String) :=
  selectColumns valuedColumns ["NAME", "roi", "tax_rate"]

/-- The field lookup performed by the folium tooltip:
`GeoJsonTooltip(fields=["NAME", "value"])` over the merged frame's
properties. -/
def tooltipSelect : Except String (List String) :=
  selectColumns valuedColumns ["NAME", "value"]

/-- The CSV header the download button would emit
(`rename(columns={"NAME":"county","roi":"rental_roi","tax_rate":"property_tax_rate"})`,
`to_csv(index=False)`). -/
def csvHeader : List String := ["county", "rental_roi", "property_tax_rate"]

/-- The synthetic statistics row of the spec's example. -/
def adamsRow : AcsRow :=
  { NAME := "Adams County", rent := 700, homeValue := 140000, tax := 1200,
    state := "18", county := "001" }

/-- A statistics row with a zero median home value. -/
def zeroValueRow : AcsRow :=
  { NAME := "Blackford County", rent := 700, homeValue := 0, tax := 1200,
    state := "18", county := "009" }

/-- A two-row TIGER table: one Indiana county, one Illinois county. -/
def sampleShp : List (ShpRow Nat) :=
  [{ STATEFP := "18", COUNTYFP := "001", NAME := "Adams", geometry := 0 },
   { STATEFP := "17", COUNTYFP := "001", NAME := "Adams", geometry := 1 }]

/-- A STATEFP/COUNTYFP or state/county code pair whose first component has
length 2 (TIGER state codes are two digits): if its concatenation starts
with "18", the first component is "18". -/
lemma eq_18_of_append (s t u : String) (h : s.length = 2)
    (he : s ++ t = "18" ++ u) : s = "18" := by
  have hd : s.data ++ t.data = '1' :: '8' :: u.data := by
    have h2 := congrArg String.data he
    simpa [String.data_append] using h2
  obtain ⟨a, b, hab⟩ := List.length_eq_two.mp h
  rw [show s.data = [a, b] from hab] at hd
  simp at hd
  obtain ⟨ha, hb, -⟩ := hd
  cases s with
  | mk l =>
    simp [String.data] at hab
    subst hab ha hb
    rfl

/-- Claim C1: for every valid statistics row (with the ratio defined, i.e.
nonzero median home value), the derived rental-yield ratio is exactly
(rent x 12) / home value and the derived tax-burden ratio is exactly
tax / home value. -/
theorem derived_ratios_exact (r : AcsRow) (h : r.homeValue ≠ 0) :
    (deriveRegion r).roi = FVal.fin ((r.rent * 12) / r.homeValue) ∧
    (deriveRegion r).tax_rate = FVal.fin (r.tax / r.homeValue) := by
  constructor <;> simp [deriveRegion, fdiv, h]

/-- Witness for C1 at the Adams County row. -/
theorem derived_ratios_exact_witness :
    adamsRow.homeValue ≠ 0 ∧
    ((deriveRegion adamsRow).roi = FVal.fin ((adamsRow.rent * 12) / adamsRow.homeValue) ∧
     (deriveRegion adamsRow).tax_rate = FVal.fin (adamsRow.tax / adamsRow.homeValue)) :=
  ⟨by decide, derived_ratios_exact adamsRow (by decide)⟩

/-- Claim C2: the fips set of the merged view is exactly the intersection of
the statistics fips set and the boundary fips set. -/
theorem merged_fips_eq_intersection (gdf : List (Boundary γ)) (df : List Region)
    (f : String) :
    f ∈ (mergeRecs gdf df).map MergedRec.fips ↔
      f ∈ df.map Region.fips ∧ f ∈ gdf.map Boundary.fips := by
  simp only [mergeRecs, List.mem_map, List.mem_flatMap, List.mem_filter, decide_eq_true_eq]
  constructor
  · rintro ⟨m, ⟨b, hb, r, ⟨hr, hfips⟩, rfl⟩, rfl⟩
    exact ⟨⟨r, hr, hfips⟩, ⟨b, hb, rfl⟩⟩
  · rintro ⟨⟨r, hr, hrf⟩, ⟨b, hb, hbf⟩⟩
    exact ⟨_, ⟨b, hb, r, ⟨hr, by rw [hrf, hbf]⟩, rfl⟩, by simpa using hbf⟩

/-- Claim C3: at a zero median home value `fetch_acs_indiana` raises
nothing — it returns a Region record whose roi and tax_rate are IEEE
infinity (pandas float division by zero). -/
theorem zero_home_value_yields_infinite_roi :
    fetch_acs_indiana [zeroValueRow] =
      [{ NAME := "Blackford County", fips := "18009",
         roi := FVal.inf, tax_rate := FVal.inf }] := by
  norm_num [fetch_acs_indiana, deriveRegion, zeroValueRow, fdiv]
  rfl

/-- Claim C4: the CSV download's column selection
`merged[["NAME","roi","tax_rate"]]` raises a KeyError, because the merge
suffixed the overlapping NAME columns; no CSV is produced. -/
theorem csv_export_raises_keyerror :
    csvSelect = Except.error "KeyError: not in index" := rfl

/-- Claim C5: the spec's example row (rent 700, home value 140000, tax 1200)
derives rental_roi = 0.06 and tax_rate = 1200/140000 exactly. -/
theorem adams_county_example :
    deriveRegion adamsRow =
      { NAME := "Adams County", fips := "18001",
        roi := FVal.fin (6/100), tax_rate := FVal.fin (1200/140000) } := by
  norm_num [deriveRegion, adamsRow, fdiv]
  rfl

/-- Claim C6: selecting a metric never changes the stored fields of a merged
record — the two selections agree on roi and tax_rate, and all fields other
than the added value column are those of the input record. -/
theorem metric_choice_preserves_stored_ratios (m₁ m₂ : String) (r : MergedRec γ) :
    (applyMetric m₁ r).roi = (applyMetric m₂ r).roi ∧
    (applyMetric m₁ r).tax_rate = (applyMetric m₂ r).tax_rate ∧
    (applyMetric m₁ r).toMergedRec = r := by
  unfold applyMetric
  split <;> split <;> simp

/-- Claim C7: for either radio option, the displayed value is the selected
ratio times 100 (rental-yield for the Rental option, tax-burden otherwise),
and the legend is that option's percentage label. -/
theorem metric_value_is_ratio_times_100 (metric : String) (r : MergedRec γ)
    (q₁ q₂ : ℚ) (h₁ : r.roi = FVal.fin q₁) (h₂ : r.tax_rate = FVal.fin q₂)
    (hm : metric ∈ metricOptions) :
    (applyMetric metric r).value =
      FVal.fin ((if metric = "Rental ROI (%)" then q₁ else q₂) * 100) ∧
    legendOf metric = metric := by
  simp only [metricOptions, List.mem_cons, List.mem_singleton] at hm
  rcases hm with rfl | hm
  · refine ⟨?_, rfl⟩
    have hv : (applyMetric "Rental ROI (%)" r).value = fscale100 r.roi := rfl
    rw [hv, h₁]
    simp [fscale100]
  · rcases hm with rfl | h
    · refine ⟨?_, rfl⟩
      have hv : (applyMetric "Property Tax Rate (%)" r).value = fscale100 r.tax_rate := rfl
      rw [hv, h₂]
      simp [fscale100]
    · exact absurd h (by simp)

/-- Witness for C7 at the Rental option and a concrete merged record. -/
theorem metric_value_is_ratio_times_100_witness :
    (applyMetric "Rental ROI (%)"
        ({ fips := "18001", geometry := (), NAME_x := "Adams", NAME_y := "Adams County",
           roi := FVal.fin (3/50), tax_rate := FVal.fin (3/350) } : MergedRec Unit)).value =
      FVal.fin ((if "Rental ROI (%)" = "Rental ROI (%)" then (3:ℚ)/50 else 3/350) * 100) ∧
    legendOf "Rental ROI (%)" = "Rental ROI (%)" :=
  metric_value_is_ratio_times_100 "Rental ROI (%)" _ (3/50) (3/350) rfl rfl (by decide)

/-- Claim C8: `load_indiana_county_shapes` outputs exactly the features
whose fips (STATEFP ++ COUNTYFP) carries the state code 18 as its first two
characters, given that STATEFP codes have length 2. -/
theorem boundary_filters_state18 (gdf : List (ShpRow γ))
    (hlen : ∀ r ∈ gdf, r.STATEFP.length = 2) (b : Boundary γ) :
    b ∈ load_indiana_county_shapes gdf ↔
      ∃ r ∈ gdf, (∃ u, r.STATEFP ++ r.COUNTYFP = "18" ++ u) ∧
        b = { fips := r.STATEFP ++ r.COUNTYFP, geometry := r.geometry, NAME := r.NAME } := by
  simp only [load_indiana_county_shapes, List.mem_map, List.mem_filter, decide_eq_true_eq]
  constructor
  · rintro ⟨r, ⟨hr, h18⟩, rfl⟩
    exact ⟨r, hr, ⟨r.COUNTYFP, by rw [h18]⟩, rfl⟩
  · rintro ⟨r, hr, ⟨u, hu⟩, rfl⟩
    exact ⟨r, ⟨hr, eq_18_of_append _ _ _ (hlen r hr) hu⟩, rfl⟩

/-- Witness for C8 on the two-row table and the Indiana boundary. -/
theorem boundary_filters_state18_witness :
    (∀ r ∈ sampleShp, r.STATEFP.length = 2) ∧
    (({ fips := "18001", geometry := 0, NAME := "Adams" } : Boundary Nat) ∈
        load_indiana_county_shapes sampleShp ↔
      ∃ r ∈ sampleShp, (∃ u, r.STATEFP ++ r.COUNTYFP = "18" ++ u) ∧
        ({ fips := "18001", geometry := 0, NAME := "Adams" } : Boundary Nat) =
          { fips := r.STATEFP ++ r.COUNTYFP, geometry := r.geometry, NAME := r.NAME }) :=
  ⟨by decide, boundary_filters_state18 sampleShp (by decide) _⟩

/-- Claim C9: both source frames carry a NAME column, the merge renames them
to NAME_x and NAME_y leaving no NAME column, and both the CSV selection and
the tooltip field lookup fail with a missing-column error. -/
theorem merge_suffixes_NAME_and_selects_fail :
    "NAME" ∈ gdfColumns ∧ "NAME" ∈ dfColumns ∧
    mergedColumns = ["fips", "geometry", "NAME_x", "NAME_y", "roi", "tax_rate"] ∧
    "NAME" ∉ mergedColumns ∧
    csvSelect = Except.error "KeyError: not in index" ∧
    tooltipSelect = Except.error "KeyError: not in index" :=
  ⟨by decide, by decide, by decide, by decide, rfl, rfl⟩

/-- Claim C10: every fips produced by the fetcher (under the API contract
that the state field of each row is "18"), by the boundary loader, and in
the merged view is "18" followed by a county code. -/
theorem all_fips_start_with_18 (rows : List AcsRow) (gdf : List (ShpRow γ))
    (hstate : ∀ r ∈ rows, r.state = "18") :
    (∀ reg ∈ fetch_acs_indiana rows, ∃ c, reg.fips = "18" ++ c) ∧
    (∀ b ∈ load_indiana_county_shapes gdf, ∃ c, b.fips = "18" ++ c) ∧
    (∀ m ∈ mergeRecs (load_indiana_county_shapes gdf) (fetch_acs_indiana rows),
        ∃ c, m.fips = "18" ++ c) := by
  have hfetch : ∀ reg ∈ fetch_acs_indiana rows, ∃ c, reg.fips = "18" ++ c := by
    intro reg hreg
    simp only [fetch_acs_indiana, List.mem_map] at hreg
    obtain ⟨r, hr, rfl⟩ := hreg
    exact ⟨r.county, by simp [deriveRegion, hstate r hr]⟩
  have hload : ∀ b ∈ load_indiana_county_shapes gdf, ∃ c, b.fips = "18" ++ c := by
    intro b hb
    simp only [load_indiana_county_shapes, List.mem_map, List.mem_filter,
      decide_eq_true_eq] at hb
    obtain ⟨r, ⟨hr, h18⟩, rfl⟩ := hb
    exact ⟨r.COUNTYFP, by rw [h18]⟩
  refine ⟨hfetch, hload, ?_⟩
  intro m hm
  simp only [mergeRecs, List.mem_flatMap, List.mem_map, List.mem_filter,
    decide_eq_true_eq] at hm
  obtain ⟨b, hb, r, -, rfl⟩ := hm
  exact hload b hb

/-- Witness for C10 on one statistics row and the two-row TIGER table. -/
theorem all_fips_start_with_18_witness :
    (∀ r ∈ [adamsRow], r.state = "18") ∧
    ((∀ reg ∈ fetch_acs_indiana [adamsRow], ∃ c, reg.fips = "18" ++ c) ∧
     (∀ b ∈ load_indiana_county_shapes sampleShp, ∃ c, b.fips = "18" ++ c) ∧
     (∀ m ∈ mergeRecs (load_indiana_county_shapes sampleShp) (fetch_acs_indiana [adamsRow]),
        ∃ c, m.fips = "18" ++ c)) :=
  ⟨by decide, all_fips_start_with_18 [adamsRow] sampleShp (by decide)⟩

end IndianaROI
